import Mathlib

/-!
Shallow embedding of the romio reactor background-lifecycle module
(src/reactor/background.rs) and of the Unix datagram socket wrapper
(src/uds/datagram.rs), with theorems settling the specification claims.
-/

namespace Romio

/-! State-word constants from src/reactor/background.rs.  The initial value of
the shared AtomicUsize is 0 (Running); the source names the other three. -/

def RUNNING : Nat := 0

def SHUTDOWN_IDLE : Nat := 1

def SHUTDOWN_NOW : Nat := 2

def SHUTDOWN : Nat := 3

/-- Poll result type, mirroring futures::Poll. -/
inductive Poll (α : Type) where
  | ready (a : α)
  | pending
deriving DecidableEq

/-- Shared state between the background handle and the reactor thread:
the atomic shutdown word plus the AtomicWaker slot for the
shutdown-completion task (struct Shared in background.rs).
Wakers are abstracted as natural-number identifiers. -/
structure Shared where
  shutdown : Nat
  taskWaker : Option Nat
deriving DecidableEq

/-- Inner.is_shutdown: the shared word equals SHUTDOWN. -/
def is_shutdown (sh : Shared) : Bool :=
  sh.shutdown == SHUTDOWN

/-- Future::poll for Shutdown: register the supplied waker in the
shutdown_task slot, then return Pending unless is_shutdown, in which case
Ready(Ok(())).  Returns the updated shared state and the poll result. -/
def shutdown_poll (sh : Shared) (lw : Nat) : Shared × Poll (Except Unit Unit) :=
  let sh1 : Shared := { sh with taskWaker := some lw }
  if is_shutdown sh1 = false then
    (sh1, Poll.pending)
  else
    (sh1, Poll.ready (Except.ok ()))

/-- Inner.shutdown_now, modelled against an oracle of shared-word values:
the argument curr is the value last observed (initially the SeqCst load),
and obs lists the actual value of the shared word at each successive
compare_and_swap attempt (interference by other threads may make it differ
from curr).  Returns none when obs is exhausted while the loop would still
run, otherwise some (finalWord, wokeReactor, casAttempts): the shared word
when the call returns (assuming no interference after the last attempt),
whether handle.wakeup() was issued, and how many compare_and_swap calls
were executed. -/
def shutdown_now_loop : Nat → List Nat → Option (Nat × Bool × Nat)
  | curr, obs =>
    if SHUTDOWN_NOW ≤ curr then
      some (curr, false, 0)
    else
      match obs with
      | [] => none
      | w :: rest =>
        if w = curr then
          some (SHUTDOWN_NOW, true, 1)
        else
          match shutdown_now_loop w rest with
          | some (fw, woke, n) => some (fw, woke, n + 1)
          | none => none

/-- Inner.shutdown_now entry point: w0 is the value returned by the initial
SeqCst load of the shared word. -/
def shutdown_now (w0 : Nat) (obs : List Nat) : Option (Nat × Bool × Nat) :=
  shutdown_now_loop w0 obs

/-! Run loop (fn run in background.rs), modelled as a trace of actions over a
finite schedule of per-iteration environments.  Each IterEnv gives the value
the SeqCst load of the shared word returns at the loop head, the value of
reactor.is_idle(), and whether reactor.turn(None) returns Ok.  An exhausted
schedule means the loop is still running (the trace is truncated). -/

structure IterEnv where
  st : Nat
  idle : Bool
  turnOk : Bool
deriving DecidableEq

/-- Observable actions of the reactor thread. -/
inductive Action where
  | readState (v : Nat)
  | turnCall (timeout : Option Nat) (ok : Bool)
  | dropReactor
  | storeShutdown
  | wakeWaker
  | panicked
deriving DecidableEq

/-- Trace of fn run: each iteration loads the word; SHUTDOWN_NOW breaks;
SHUTDOWN_IDLE with an idle reactor breaks; otherwise turn(None).unwrap() is
called — an Err makes unwrap panic, unwinding (which still drops the local
reactor) without reaching the store or the wake.  After a break the reactor
is dropped, SHUTDOWN is stored, and the shutdown task is woken. -/
def run : List IterEnv → List Action
  | [] => []
  | e :: rest =>
    if e.st = SHUTDOWN_NOW then
      [Action.readState e.st, Action.dropReactor, Action.storeShutdown,
       Action.wakeWaker]
    else if e.st = SHUTDOWN_IDLE ∧ e.idle = true then
      [Action.readState e.st, Action.dropReactor, Action.storeShutdown,
       Action.wakeWaker]
    else if e.turnOk = true then
      Action.readState e.st :: Action.turnCall none true :: run rest
    else
      [Action.readState e.st, Action.turnCall none false, Action.panicked,
       Action.dropReactor]

/-- Condition under which an iteration of fn run breaks out of the loop. -/
def break_cond (e : IterEnv) : Prop :=
  e.st = SHUTDOWN_NOW ∨ (e.st = SHUTDOWN_IDLE ∧ e.idle = true)

instance (e : IterEnv) : Decidable (break_cond e) := by
  unfold break_cond; infer_instance

/-! Background handle: forget and Drop (impl Background / impl Drop). -/

/-- Background handle: inner is None once forgotten (the unit stands for the
live Inner value, whose shared state is tracked separately). -/
structure Background where
  inner : Option Unit
deriving DecidableEq

/-- Background.forget: take inner out and drop it.  Dropping the Inner value
releases only reference counts; the shared shutdown word and the registered
waker are untouched, so the shared state passes through unchanged. -/
def forget (b : Background) (sh : Shared) : Background × Shared :=
  (⟨none⟩, sh)

/-- Control flow of Drop for Background: with inner None it returns at once;
with inner present it calls shutdown_now and then blocks on the Shutdown
future via block_on. -/
inductive DropBehavior where
  | immediateReturn
  | requestAndBlock
deriving DecidableEq

/-- Drop::drop dispatch: determined entirely by whether inner was taken. -/
def dropBackground (b : Background) : DropBehavior :=
  match b.inner with
  | none => DropBehavior.immediateReturn
  | some _ => DropBehavior.requestAndBlock

/-! Unix datagram socket wrapper (src/uds/datagram.rs).  The readiness
bridge PollEvented lives in src/reactor/poll_evented.rs, which is not part
of the sources; it is modelled from the spec (sections 3 and 4.2). -/

/-- Error kinds distinguished by the wrapper; mirrors io::ErrorKind as far
as the code inspects it. -/
inductive ErrorKind where
  | wouldBlock
  | connectionReset
  | other (code : Nat)
deriving DecidableEq

/-- Error value carrying its kind, mirroring io::Error::kind(). -/
structure IoError where
  kind : ErrorKind
deriving DecidableEq

/-- is_wouldblock from datagram.rs: Ok is never would-block; an Err is
would-block exactly when its kind is WouldBlock. -/
def is_wouldblock {α : Type} (r : Except IoError α) : Bool :=
  match r with
  | Except.ok _ => false
  | Except.error e => e.kind == ErrorKind.wouldBlock

/-- Modelled from the spec: per-direction record of the readiness bridge
(PollEvented, absent from the sources) — a sticky readiness flag and a
single waker slot (spec sections 3 and 4.2). -/
structure DirState where
  ready : Bool
  waker : Option Nat
deriving DecidableEq

/-- Modelled from the spec: poll_ready — if the sticky flag is unset, store
the waker (replacing any prior one) and report suspended; else report the
readiness without consuming it. -/
def poll_dir_ready (d : DirState) (lw : Nat) : DirState × Poll Unit :=
  if d.ready = false then
    ({ d with waker := some lw }, Poll.pending)
  else
    (d, Poll.ready ())

/-- Modelled from the spec: clear_ready — unset the sticky flag and
re-register the waker. -/
def clear_dir_ready (d : DirState) (lw : Nat) : DirState :=
  { ready := false, waker := some lw }

/-- Modelled from the spec: the readiness bridge holding one DirState per
direction. -/
structure PollEvented where
  readDir : DirState
  writeDir : DirState
deriving DecidableEq

def poll_read_ready (p : PollEvented) (lw : Nat) : PollEvented × Poll Unit :=
  let (d, r) := poll_dir_ready p.readDir lw
  ({ p with readDir := d }, r)

def poll_write_ready (p : PollEvented) (lw : Nat) : PollEvented × Poll Unit :=
  let (d, r) := poll_dir_ready p.writeDir lw
  ({ p with writeDir := d }, r)

def clear_read_ready (p : PollEvented) (lw : Nat) : PollEvented :=
  { p with readDir := clear_dir_ready p.readDir lw }

def clear_write_ready (p : PollEvented) (lw : Nat) : PollEvented :=
  { p with writeDir := clear_dir_ready p.writeDir lw }

/-- UnixDatagram from datagram.rs: an io resource wrapped in the bridge. -/
structure UnixDatagram where
  io : PollEvented
deriving DecidableEq

/-- UnixDatagram::poll_recv_from.  The outcome of the non-blocking
recv_from system call is supplied as recvResult (the kernel is external).
First poll_read_ready; propagate a suspension; otherwise attempt recv_from;
on a would-block error clear_read_ready with the waker and report Pending;
otherwise return the result unmodified in Ready. -/
def poll_recv_from (u : UnixDatagram) (lw : Nat)
    (recvResult : Except IoError (Nat × Nat)) :
    UnixDatagram × Poll (Except IoError (Nat × Nat)) :=
  match poll_read_ready u.io lw with
  | (pe, Poll.pending) => (⟨pe⟩, Poll.pending)
  | (pe, Poll.ready _) =>
    let r := recvResult
    if is_wouldblock r then
      (⟨clear_read_ready pe lw⟩, Poll.pending)
    else
      (⟨pe⟩, Poll.ready r)

/-- UnixDatagram::poll_send_to, symmetric to poll_recv_from with the write
direction and the send_to outcome. -/
def poll_send_to (u : UnixDatagram) (lw : Nat)
    (sendResult : Except IoError Nat) :
    UnixDatagram × Poll (Except IoError Nat) :=
  match poll_write_ready u.io lw with
  | (pe, Poll.pending) => (⟨pe⟩, Poll.pending)
  | (pe, Poll.ready _) =>
    let r := sendResult
    if is_wouldblock r then
      (⟨clear_write_ready pe lw⟩, Poll.pending)
    else
      (⟨pe⟩, Poll.ready r)

/-! Cross-thread transition system for the shutdown protocol: one reactor
thread running fn run, one thread dropping the Background handle, plus the
idle-shutdown requester.  Shared state is only the atomic word; the other
fields record thread progress and observable wake counts. -/

/-- Program counter of the reactor thread through fn run. -/
inductive RunPC where
  | looping
  | exited
  | reactorGone
  | stored
  | doneWake
deriving DecidableEq

/-- Program counter of the thread executing Drop for Background. -/
inductive DropPC where
  | live
  | blocked
  | returned
deriving DecidableEq

/-- Global system state. -/
structure Sys where
  word : Nat
  runPC : RunPC
  dropPC : DropPC
  wakeups : Nat
  taskWakes : Nat
deriving DecidableEq

/-- Initial state: word 0 (Running), reactor thread looping, handle live. -/
def sysInit : Sys :=
  { word := RUNNING, runPC := RunPC.looping, dropPC := DropPC.live,
    wakeups := 0, taskWakes := 0 }

/-- Interleaved atomic steps of the shutdown protocol.  idleReq is modelled
from the spec (the idle-gated shutdown request, whose source is not under
src/): a compare-and-swap Running to ShutdownIdle.  dropNowHit and
dropNowSkip are the two outcomes of Inner::shutdown_now called from Drop
(the single successful compare_and_swap, with its wakeup, or the early
return at a word already at least SHUTDOWN_NOW).  dropResume is block_on
returning, possible only when the Shutdown future polls Ready, i.e. the
word is SHUTDOWN.  exitNow and exitIdle are the run-loop breaks;
reactorDropStep, storeStep and wakeStep are the three actions after the
break, in program order. -/
inductive SysStep : Sys → Sys → Prop where
  | idleReq (s : Sys) (h : s.word = RUNNING) :
      SysStep s { s with word := SHUTDOWN_IDLE }
  | dropNowHit (s : Sys) (h : s.dropPC = DropPC.live)
      (hw : s.word < SHUTDOWN_NOW) :
      SysStep s { s with word := SHUTDOWN_NOW, wakeups := s.wakeups + 1,
                         dropPC := DropPC.blocked }
  | dropNowSkip (s : Sys) (h : s.dropPC = DropPC.live)
      (hw : SHUTDOWN_NOW ≤ s.word) :
      SysStep s { s with dropPC := DropPC.blocked }
  | dropResume (s : Sys) (h : s.dropPC = DropPC.blocked)
      (hw : s.word = SHUTDOWN) :
      SysStep s { s with dropPC := DropPC.returned }
  | exitNow (s : Sys) (h : s.runPC = RunPC.looping)
      (hw : s.word = SHUTDOWN_NOW) :
      SysStep s { s with runPC := RunPC.exited }
  | exitIdle (s : Sys) (h : s.runPC = RunPC.looping)
      (hw : s.word = SHUTDOWN_IDLE) :
      SysStep s { s with runPC := RunPC.exited }
  | reactorDropStep (s : Sys) (h : s.runPC = RunPC.exited) :
      SysStep s { s with runPC := RunPC.reactorGone }
  | storeStep (s : Sys) (h : s.runPC = RunPC.reactorGone) :
      SysStep s { s with word := SHUTDOWN, runPC := RunPC.stored }
  | wakeStep (s : Sys) (h : s.runPC = RunPC.stored) :
      SysStep s { s with taskWakes := s.taskWakes + 1,
                         runPC := RunPC.doneWake }

/-- States reachable from sysInit by interleaved steps. -/
inductive SysReach : Sys → Prop where
  | start : SysReach sysInit
  | step {s t : Sys} : SysReach s → SysStep s t → SysReach t

/-- Rank of a word value under the order Running < ShutdownIdle =
ShutdownNow < Shutdown. -/
def rank (w : Nat) : Nat :=
  if w = RUNNING then 0 else if w = SHUTDOWN then 2 else 1

/-- Inductive invariant of the shutdown protocol. -/
def SysInv (s : Sys) : Prop :=
  s.word ≤ SHUTDOWN
  ∧ (s.word = SHUTDOWN ↔ (s.runPC = RunPC.stored ∨ s.runPC = RunPC.doneWake))
  ∧ ((s.runPC = RunPC.exited ∨ s.runPC = RunPC.reactorGone) →
      (SHUTDOWN_IDLE ≤ s.word ∧ s.word ≤ SHUTDOWN_NOW))
  ∧ (s.dropPC ≠ DropPC.live → SHUTDOWN_NOW ≤ s.word)
  ∧ (s.dropPC = DropPC.returned → s.word = SHUTDOWN)

theorem sysInv_init : SysInv sysInit := by
  simp [SysInv, sysInit, RUNNING, SHUTDOWN, SHUTDOWN_NOW, SHUTDOWN_IDLE, RunPC.looping]

theorem sysInv_step {s t : Sys} (hs : SysInv s) (h : SysStep s t) : SysInv t := by
  obtain ⟨h1, h2, h3, h4, h5⟩ := hs
  cases h <;>
    simp_all [SysInv, RUNNING, SHUTDOWN, SHUTDOWN_IDLE, SHUTDOWN_NOW] <;>
    first
      | omega
      | exact ⟨fun hpc => by have := h2.mpr (Or.inl hpc); omega,
               fun hpc => by have := h2.mpr (Or.inr hpc); omega⟩

theorem sysReach_inv {s : Sys} (h : SysReach s) : SysInv s := by
  induction h with
  | start => exact sysInv_init
  | step _ hstep ih => exact sysInv_step ih hstep

/-- Each step leaves the word rank non-decreasing. -/
theorem sysStep_rank_mono {s t : Sys} (h : SysStep s t) :
    rank s.word ≤ rank t.word := by
  cases h <;>
    simp_all [rank, RUNNING, SHUTDOWN, SHUTDOWN_IDLE, SHUTDOWN_NOW] <;>
    split_ifs <;> omega

/-- Once the word is SHUTDOWN no step changes it, provided the state is
reachable. -/
theorem sysStep_shutdown_stays {s t : Sys} (hr : SysReach s) (h : SysStep s t)
    (hw : s.word = SHUTDOWN) : t.word = SHUTDOWN := by
  have hinv := sysReach_inv hr
  obtain ⟨h1, h2, h3, h4, h5⟩ := hinv
  cases h <;> simp_all [RUNNING, SHUTDOWN, SHUTDOWN_IDLE, SHUTDOWN_NOW]

/-- Rank of the reactor-thread program counter through fn run. -/
def pcRank : RunPC → Nat
  | RunPC.looping => 0
  | RunPC.exited => 1
  | RunPC.reactorGone => 2
  | RunPC.stored => 3
  | RunPC.doneWake => 4

/-- The reactor-thread program counter only advances. -/
theorem sysStep_pc_mono {s t : Sys} (h : SysStep s t) :
    pcRank s.runPC ≤ pcRank t.runPC := by
  cases h <;> simp_all [pcRank]

/-- On a schedule where every observed word is RUNNING and every turn
succeeds, the run loop only reads the state and turns: it never breaks,
never drops the reactor, and never stores or wakes. -/
theorem run_running_no_break (sched : List IterEnv)
    (hall : ∀ e ∈ sched, e.st = RUNNING ∧ e.turnOk = true) :
    ∀ a ∈ run sched, a = Action.readState RUNNING ∨ a = Action.turnCall none true := by
  induction sched with
  | nil => intro a ha; simp [run] at ha
  | cons e rest ih =>
    have he := hall e (List.mem_cons_self e rest)
    have hrest := fun e2 h2 => hall e2 (List.mem_cons_of_mem e h2)
    intro a ha
    simp [run, he.1, he.2, RUNNING, SHUTDOWN_NOW, SHUTDOWN_IDLE] at ha
    rcases ha with ha | ha | ha
    · exact Or.inl (by simp [ha, RUNNING])
    · exact Or.inr (by simp [ha])
    · exact ih hrest a ha

/-- C1: Every iteration of the background run loop first reads the shared
shutdown word; if it equals SHUTDOWN_NOW, or equals SHUTDOWN_IDLE while the
reactor is idle, the loop breaks and then performs, in order, the drop of
the Reactor, the atomic store of SHUTDOWN, and the wake of the registered
shutdown waker; otherwise the loop calls turn with an unbounded timeout
(None) and repeats. -/
theorem C1_run_loop (e : IterEnv) (rest : List IterEnv) :
    (break_cond e →
      run (e :: rest) =
        [Action.readState e.st, Action.dropReactor, Action.storeShutdown,
         Action.wakeWaker])
    ∧ (¬ break_cond e → e.turnOk = true →
      run (e :: rest) =
        Action.readState e.st :: Action.turnCall none true :: run rest) := by
  constructor
  · intro hb
    rcases hb with hb | hb
    · simp [run, hb]
    · by_cases h2 : e.st = SHUTDOWN_NOW
      · simp [run, h2]
      · simp [run, h2, hb.1, hb.2]
  · intro hb ht
    have hA : ¬ e.st = SHUTDOWN_NOW := fun hh => hb (Or.inl hh)
    have hB : ¬ (e.st = SHUTDOWN_IDLE ∧ e.idle = true) := fun hh => hb (Or.inr hh)
    simp [run, hA, hB, ht]

/-- Witness for C1 at the schedule whose first observation is SHUTDOWN_NOW. -/
theorem C1_run_loop_witness :
    run [⟨SHUTDOWN_NOW, false, true⟩] =
      [Action.readState SHUTDOWN_NOW, Action.dropReactor, Action.storeShutdown,
       Action.wakeWaker] :=
  (C1_run_loop ⟨SHUTDOWN_NOW, false, true⟩ []).1 (Or.inl rfl)

/-- C2: Along every interleaving the shutdown word is monotonic
non-decreasing under Running < ShutdownIdle = ShutdownNow < Shutdown; in a
reachable state the word is SHUTDOWN exactly when the reactor thread has
performed its post-loop store; once SHUTDOWN the word never changes; the
step that makes the word SHUTDOWN is exactly the reactor-thread store, taken
after the run loop has exited and with the reactor dropped; and the
reactor-thread program counter only advances, so that store happens at most
once. -/
theorem C2_monotonic :
    (∀ s t : Sys, SysStep s t → rank s.word ≤ rank t.word)
    ∧ (∀ s : Sys, SysReach s →
        (s.word = SHUTDOWN ↔
          (s.runPC = RunPC.stored ∨ s.runPC = RunPC.doneWake)))
    ∧ (∀ s t : Sys, SysReach s → SysStep s t → s.word = SHUTDOWN →
        t.word = SHUTDOWN)
    ∧ (∀ s t : Sys, SysStep s t → s.word ≠ SHUTDOWN → t.word = SHUTDOWN →
        s.runPC = RunPC.reactorGone ∧ t.runPC = RunPC.stored)
    ∧ (∀ s t : Sys, SysStep s t → pcRank s.runPC ≤ pcRank t.runPC) := by
  refine ⟨fun s t h => sysStep_rank_mono h, ?_, ?_, ?_, fun s t h => sysStep_pc_mono h⟩
  · intro s hr
    exact (sysReach_inv hr).2.1
  · intro s t hr h hw
    exact sysStep_shutdown_stays hr h hw
  · intro s t h hne h3
    cases h <;> simp_all [RUNNING, SHUTDOWN, SHUTDOWN_IDLE, SHUTDOWN_NOW]

/-- Witness for C2 at the initial state and its first idle-request step. -/
theorem C2_monotonic_witness :
    sysInit.word = SHUTDOWN ↔
      (sysInit.runPC = RunPC.stored ∨ sysInit.runPC = RunPC.doneWake) :=
  C2_monotonic.2.1 sysInit SysReach.start

/-- C3: shutdown_now is idempotent: from a word already at least
SHUTDOWN_NOW (including SHUTDOWN) it returns with the word unchanged, no
compare-and-swap executed, and no force-wakeup; from a lower word, when the
first compare_and_swap observes the loaded value, it writes SHUTDOWN_NOW
with that single compare-and-swap and issues exactly one force-wakeup. -/
theorem C3_shutdown_now_idempotent (w0 : Nat) (obs : List Nat) :
    (SHUTDOWN_NOW ≤ w0 → shutdown_now w0 obs = some (w0, false, 0))
    ∧ (w0 < SHUTDOWN_NOW →
        shutdown_now w0 (w0 :: obs) = some (SHUTDOWN_NOW, true, 1)) := by
  constructor
  · intro h
    unfold shutdown_now shutdown_now_loop
    simp [h]
  · intro h
    unfold shutdown_now shutdown_now_loop
    simp [Nat.not_le.mpr h]

/-- Witness for C3 at the words SHUTDOWN and RUNNING. -/
theorem C3_shutdown_now_idempotent_witness :
    shutdown_now SHUTDOWN [] = some (SHUTDOWN, false, 0)
    ∧ shutdown_now RUNNING [RUNNING] = some (SHUTDOWN_NOW, true, 1) :=
  ⟨(C3_shutdown_now_idempotent SHUTDOWN []).1 (by decide),
   (C3_shutdown_now_idempotent RUNNING []).2 (by decide)⟩

/-- C4: Every poll of the Shutdown completion future re-registers the
supplied waker, leaves the shutdown word untouched, returns Pending exactly
when the word is not SHUTDOWN, and once the word is SHUTDOWN returns
Ready (Ok ()), identically on any repeated poll. -/
theorem C4_shutdown_poll (sh : Shared) (lw lw2 : Nat) :
    ((shutdown_poll sh lw).1.taskWaker = some lw)
    ∧ ((shutdown_poll sh lw).1.shutdown = sh.shutdown)
    ∧ ((shutdown_poll sh lw).2 = Poll.pending ↔ sh.shutdown ≠ SHUTDOWN)
    ∧ (sh.shutdown = SHUTDOWN →
        (shutdown_poll sh lw).2 = Poll.ready (Except.ok ())
        ∧ (shutdown_poll (shutdown_poll sh lw).1 lw2).2
            = Poll.ready (Except.ok ())) := by
  by_cases h : sh.shutdown = SHUTDOWN <;>
    simp [shutdown_poll, is_shutdown, h]

/-- Witness for C4 at a shared state whose word is SHUTDOWN. -/
theorem C4_shutdown_poll_witness :
    (shutdown_poll ⟨SHUTDOWN, none⟩ 5).2 = Poll.ready (Except.ok ()) :=
  ((C4_shutdown_poll ⟨SHUTDOWN, none⟩ 5 6).2.2.2 rfl).1

/-- C5: forget leaves the shared shutdown state untouched (word and waker
pass through unchanged), the subsequent Drop of the forgotten Background
returns immediately without requesting shutdown or blocking, and on a
schedule where the word stays RUNNING and turn keeps succeeding the reactor
thread never breaks out of its loop. -/
theorem C5_forget_detaches (b : Background) (sh : Shared)
    (sched : List IterEnv) :
    ((forget b sh).2 = sh)
    ∧ (dropBackground (forget b sh).1 = DropBehavior.immediateReturn)
    ∧ ((∀ e ∈ sched, e.st = RUNNING ∧ e.turnOk = true) →
        ∀ a ∈ run sched,
          a = Action.readState RUNNING ∨ a = Action.turnCall none true) :=
  ⟨rfl, rfl, fun hall => run_running_no_break sched hall⟩

/-- Witness for C5 at a live handle and a one-iteration Running schedule. -/
theorem C5_forget_detaches_witness :
    ((forget ⟨some ()⟩ ⟨RUNNING, none⟩).2 = (⟨RUNNING, none⟩ : Shared))
    ∧ (dropBackground (forget ⟨some ()⟩ ⟨RUNNING, none⟩).1
        = DropBehavior.immediateReturn)
    ∧ (Action.readState RUNNING = Action.readState RUNNING
        ∨ Action.readState RUNNING = Action.turnCall none true) :=
  ⟨(C5_forget_detaches ⟨some ()⟩ ⟨RUNNING, none⟩ []).1,
   (C5_forget_detaches ⟨some ()⟩ ⟨RUNNING, none⟩ []).2.1,
   (C5_forget_detaches ⟨some ()⟩ ⟨RUNNING, none⟩ [⟨RUNNING, true, true⟩]).2.2
     (by decide) (Action.readState RUNNING) (by decide)⟩

/-- C6: In every reachable state in which Drop for Background has returned,
the word is SHUTDOWN and the reactor thread has passed its store (loop
exited, Reactor dropped); once the dropping thread has executed shutdown_now
the word is at least SHUTDOWN_NOW; and the shutdown_now taken from a word
below SHUTDOWN_NOW sets the word to SHUTDOWN_NOW and issues the
force-wakeup. -/
theorem C6_drop_blocks_until_shutdown :
    (∀ s : Sys, SysReach s → s.dropPC = DropPC.returned →
        s.word = SHUTDOWN
        ∧ (s.runPC = RunPC.stored ∨ s.runPC = RunPC.doneWake))
    ∧ (∀ s : Sys, SysReach s → s.dropPC ≠ DropPC.live →
        SHUTDOWN_NOW ≤ s.word)
    ∧ (∀ s t : Sys, SysStep s t → s.dropPC = DropPC.live →
        t.dropPC = DropPC.blocked → s.word < SHUTDOWN_NOW →
        t.word = SHUTDOWN_NOW ∧ t.wakeups = s.wakeups + 1) := by
  refine ⟨?_, ?_, ?_⟩
  · intro s hr hd
    obtain ⟨h1, h2, h3, h4, h5⟩ := sysReach_inv hr
    have hw := h5 hd
    exact ⟨hw, h2.mp hw⟩
  · intro s hr hd
    exact (sysReach_inv hr).2.2.2.1 hd
  · intro s t h hd hb hw
    cases h <;> simp_all [RUNNING, SHUTDOWN, SHUTDOWN_IDLE, SHUTDOWN_NOW] <;> omega

/-- Witness for C6 at an explicit interleaving that reaches a returned
drop. -/
theorem C6_drop_blocks_until_shutdown_witness :
    (Sys.mk SHUTDOWN RunPC.stored DropPC.returned 1 0).word = SHUTDOWN
    ∧ ((Sys.mk SHUTDOWN RunPC.stored DropPC.returned 1 0).runPC = RunPC.stored
       ∨ (Sys.mk SHUTDOWN RunPC.stored DropPC.returned 1 0).runPC
           = RunPC.doneWake) := by
  have h0 : SysReach sysInit := SysReach.start
  have h1 := SysReach.step h0 (SysStep.dropNowHit sysInit rfl (by decide))
  have h2 := SysReach.step h1 (SysStep.exitNow _ rfl rfl)
  have h3 := SysReach.step h2 (SysStep.reactorDropStep _ rfl)
  have h4 := SysReach.step h3 (SysStep.storeStep _ rfl)
  have h5 := SysReach.step h4 (SysStep.dropResume _ rfl rfl)
  exact C6_drop_blocks_until_shutdown.1 _ h5 rfl

/-- C7: poll_recv_from (and symmetrically poll_send_to) propagates a
suspension of poll_read_ready (resp. poll_write_ready); otherwise it
attempts the non-blocking call: a WouldBlock outcome leads to
clear_read_ready (resp. clear_write_ready) with the waker and Pending, and
is never surfaced in a Ready result; any other outcome, success or genuine
error, is returned unmodified in Ready. -/
theorem C7_wouldblock_suspends (u : UnixDatagram) (lw : Nat)
    (r : Except IoError (Nat × Nat)) (s : Except IoError Nat) :
    ((u.io.readDir.ready = false → (poll_recv_from u lw r).2 = Poll.pending)
     ∧ (u.io.readDir.ready = true → is_wouldblock r = true →
         (poll_recv_from u lw r).2 = Poll.pending
         ∧ (poll_recv_from u lw r).1.io = clear_read_ready u.io lw)
     ∧ (u.io.readDir.ready = true → is_wouldblock r = false →
         (poll_recv_from u lw r).2 = Poll.ready r)
     ∧ (∀ x, (poll_recv_from u lw r).2 = Poll.ready x →
         is_wouldblock x = false))
    ∧ ((u.io.writeDir.ready = false → (poll_send_to u lw s).2 = Poll.pending)
     ∧ (u.io.writeDir.ready = true → is_wouldblock s = true →
         (poll_send_to u lw s).2 = Poll.pending
         ∧ (poll_send_to u lw s).1.io = clear_write_ready u.io lw)
     ∧ (u.io.writeDir.ready = true → is_wouldblock s = false →
         (poll_send_to u lw s).2 = Poll.ready s)
     ∧ (∀ x, (poll_send_to u lw s).2 = Poll.ready x →
         is_wouldblock x = false)) := by
  constructor
  · by_cases hr : u.io.readDir.ready <;>
      by_cases hwb : is_wouldblock r <;>
      simp_all [poll_recv_from, poll_read_ready, poll_dir_ready,
        clear_read_ready, clear_dir_ready] <;>
      intro x hx <;> simp_all
  · by_cases hw : u.io.writeDir.ready <;>
      by_cases hwb : is_wouldblock s <;>
      simp_all [poll_send_to, poll_write_ready, poll_dir_ready,
        clear_write_ready, clear_dir_ready] <;>
      intro x hx <;> simp_all

/-- Witness for C7 at a ready bridge and a WouldBlock receive outcome. -/
theorem C7_wouldblock_suspends_witness :
    (poll_recv_from ⟨⟨⟨true, none⟩, ⟨true, none⟩⟩⟩ 4
        (Except.error ⟨ErrorKind.wouldBlock⟩)).2 = Poll.pending
    ∧ (poll_recv_from ⟨⟨⟨true, none⟩, ⟨true, none⟩⟩⟩ 4
        (Except.error ⟨ErrorKind.wouldBlock⟩)).1.io
      = clear_read_ready ⟨⟨true, none⟩, ⟨true, none⟩⟩ 4 :=
  (C7_wouldblock_suspends ⟨⟨⟨true, none⟩, ⟨true, none⟩⟩⟩ 4
      (Except.error ⟨ErrorKind.wouldBlock⟩) (Except.ok 0)).1.2.1 rfl rfl

/-- C8: when the attempted operation completes without WouldBlock the sticky
readiness flag is not cleared: the whole bridge state is returned untouched,
so another poller can still observe the same readiness. -/
theorem C8_no_clear_on_success (u : UnixDatagram) (lw : Nat)
    (r : Except IoError (Nat × Nat)) (s : Except IoError Nat) :
    (u.io.readDir.ready = true → is_wouldblock r = false →
        (poll_recv_from u lw r).1 = u)
    ∧ (u.io.writeDir.ready = true → is_wouldblock s = false →
        (poll_send_to u lw s).1 = u) := by
  constructor
  · intro hr hwb
    simp [poll_recv_from, poll_read_ready, poll_dir_ready, hr, hwb]
  · intro hw hwb
    simp [poll_send_to, poll_write_ready, poll_dir_ready, hw, hwb]

/-- Witness for C8 at a ready bridge and a successful receive outcome. -/
theorem C8_no_clear_on_success_witness :
    (poll_recv_from ⟨⟨⟨true, some 9⟩, ⟨false, none⟩⟩⟩ 4 (Except.ok (3, 0))).1
      = (⟨⟨⟨true, some 9⟩, ⟨false, none⟩⟩⟩ : UnixDatagram) :=
  (C8_no_clear_on_success ⟨⟨⟨true, some 9⟩, ⟨false, none⟩⟩⟩ 4
      (Except.ok (3, 0)) (Except.ok 0)).1 rfl rfl

/-- C9 as written fails on the code: when turn fails at the first iteration
(word still RUNNING), unwrap panics and unwinding drops the reactor, but
SHUTDOWN is never stored and the completion waker is never woken, so the
completion future polls Pending — the completion signal does not resolve
for a waiting releaser. -/
theorem C9_counterexample :
    run [⟨RUNNING, false, false⟩] =
      [Action.readState RUNNING, Action.turnCall none false, Action.panicked,
       Action.dropReactor]
    ∧ Action.storeShutdown ∉ run [⟨RUNNING, false, false⟩]
    ∧ Action.wakeWaker ∉ run [⟨RUNNING, false, false⟩]
    ∧ (shutdown_poll ⟨RUNNING, none⟩ 0).2 = Poll.pending :=
  ⟨rfl, by decide, by decide, rfl⟩

/-- Structure of a run trace in which some turn call failed: the trace is a
prefix of reads and successful turns followed by the failed call, the panic
and the unwind-drop of the reactor. -/
theorem run_fail_split (sched : List IterEnv)
    (hfail : Action.turnCall none false ∈ run sched) :
    ∃ pre, run sched = pre ++ [Action.turnCall none false, Action.panicked,
        Action.dropReactor]
      ∧ ∀ a ∈ pre, (∃ v, a = Action.readState v)
          ∨ a = Action.turnCall none true := by
  induction sched with
  | nil => simp [run] at hfail
  | cons e rest ih =>
    by_cases hA : e.st = SHUTDOWN_NOW
    · simp [run, hA] at hfail
    · by_cases hB : e.st = SHUTDOWN_IDLE ∧ e.idle = true
      · simp only [run, if_neg hA, if_pos hB] at hfail
        simp at hfail
      · by_cases hC : e.turnOk = true
        · have hrn : run (e :: rest) =
              Action.readState e.st :: Action.turnCall none true :: run rest := by
            simp only [run]
            rw [if_neg hA, if_neg hB, if_pos hC]
          rw [hrn] at hfail
          rcases List.mem_cons.mp hfail with heq | hfail2
          · exact absurd heq (by simp)
          rcases List.mem_cons.mp hfail2 with heq | hfail3
          · exact absurd heq (by simp)
          obtain ⟨pre, hpre, hchar⟩ := ih hfail3
          refine ⟨Action.readState e.st :: Action.turnCall none true :: pre,
            ?_, ?_⟩
          · simp [hrn, hpre]
          · intro a ha
            rcases List.mem_cons.mp ha with ha | ha
            · exact Or.inl ⟨e.st, by simp [ha]⟩
            rcases List.mem_cons.mp ha with ha | ha
            · exact Or.inr (by simp [ha])
            · exact hchar a ha
        · have hC2 : ¬ (e.turnOk = true) := hC
          have hrn : run (e :: rest) =
              [Action.readState e.st, Action.turnCall none false,
               Action.panicked, Action.dropReactor] := by
            simp only [run]
            rw [if_neg hA, if_neg hB, if_neg hC2]
          refine ⟨[Action.readState e.st], by simp [hrn], ?_⟩
          intro a ha
          simp at ha
          exact Or.inl ⟨e.st, by simp [ha]⟩

/-- C9 amended: when turn fails inside the run loop, the failure propagates
as a panic terminating the reactor thread with no retry (the trace ends at
the failed call, followed only by the panic and the unwind-drop of the
reactor); the shutdown-protocol operations themselves are total (the
completion poll always returns Pending or Ready Ok); but the run thread
never stores SHUTDOWN and never wakes the completion waker, so a waiting
releaser does not resolve. -/
theorem C9_turn_failure_panics (sched : List IterEnv)
    (hfail : Action.turnCall none false ∈ run sched) :
    (∃ pre, run sched = pre ++ [Action.turnCall none false, Action.panicked,
        Action.dropReactor]
      ∧ Action.panicked ∉ pre
      ∧ Action.turnCall none false ∉ pre)
    ∧ Action.storeShutdown ∉ run sched
    ∧ Action.wakeWaker ∉ run sched
    ∧ (∀ sh lw, (shutdown_poll sh lw).2 = Poll.pending
        ∨ (shutdown_poll sh lw).2 = Poll.ready (Except.ok ())) := by
  obtain ⟨pre, hpre, hchar⟩ := run_fail_split sched hfail
  refine ⟨⟨pre, hpre, ?_, ?_⟩, ?_, ?_, ?_⟩
  · intro hmem
    rcases hchar _ hmem with ⟨v, hv⟩ | hv <;> simp_all
  · intro hmem
    rcases hchar _ hmem with ⟨v, hv⟩ | hv <;> simp_all
  · intro hmem
    rw [hpre] at hmem
    rcases List.mem_append.mp hmem with hmem | hmem
    · rcases hchar _ hmem with ⟨v, hv⟩ | hv <;> simp_all
    · simp at hmem
  · intro hmem
    rw [hpre] at hmem
    rcases List.mem_append.mp hmem with hmem | hmem
    · rcases hchar _ hmem with ⟨v, hv⟩ | hv <;> simp_all
    · simp at hmem
  · intro sh lw
    by_cases h : sh.shutdown = SHUTDOWN <;>
      simp [shutdown_poll, is_shutdown, h]

/-- Witness for the amended C9 at a two-iteration schedule failing on the
second turn. -/
theorem C9_turn_failure_panics_witness :
    (∃ pre, run [⟨RUNNING, false, true⟩, ⟨RUNNING, false, false⟩] =
        pre ++ [Action.turnCall none false, Action.panicked,
          Action.dropReactor]
      ∧ Action.panicked ∉ pre
      ∧ Action.turnCall none false ∉ pre)
    ∧ Action.storeShutdown ∉ run [⟨RUNNING, false, true⟩, ⟨RUNNING, false, false⟩]
    ∧ Action.wakeWaker ∉ run [⟨RUNNING, false, true⟩, ⟨RUNNING, false, false⟩]
    ∧ (∀ sh lw, (shutdown_poll sh lw).2 = Poll.pending
        ∨ (shutdown_poll sh lw).2 = Poll.ready (Except.ok ())) :=
  C9_turn_failure_panics [⟨RUNNING, false, true⟩, ⟨RUNNING, false, false⟩]
    (by decide)

/-- C10: the compare-and-swap loop of shutdown_now terminates whenever
concurrent writers only increase the word, bounded above by SHUTDOWN: at
most two compare-and-swap attempts are ever executed. -/
theorem C10_cas_loop_terminates (w0 : Nat) (obs : List Nat)
    (hmono : List.Chain (· ≤ ·) w0 obs)
    (hbound : ∀ v ∈ obs, v ≤ SHUTDOWN)
    (hlen : 2 ≤ obs.length) :
    ∃ fw woke n, shutdown_now w0 obs = some (fw, woke, n) ∧ n ≤ 2 := by
  by_cases hge : SHUTDOWN_NOW ≤ w0
  · refine ⟨w0, false, 0, ?_, by omega⟩
    unfold shutdown_now shutdown_now_loop
    simp [hge]
  · match obs, hlen with
    | a :: b :: rest, _ =>
      have hab : w0 ≤ a ∧ a ≤ b := by
        rcases hmono with _ | ⟨h1, hchain⟩
        rcases hchain with _ | ⟨h2, _⟩
        exact ⟨h1, h2⟩
      by_cases ha : a = w0
      · refine ⟨SHUTDOWN_NOW, true, 1, ?_, by omega⟩
        unfold shutdown_now shutdown_now_loop
        simp [hge, ha]
      · have ha2 : w0 < a := lt_of_le_of_ne hab.1 (fun hh => ha hh.symm)
        by_cases hga : SHUTDOWN_NOW ≤ a
        · refine ⟨a, false, 1, ?_, by omega⟩
          unfold shutdown_now shutdown_now_loop
          simp [hge, ha]
          unfold shutdown_now_loop
          simp [hga]
        · have hw0 : w0 = 0 ∧ a = 1 := by
            unfold SHUTDOWN_NOW at hge hga
            omega
          by_cases hb : b = a
          · refine ⟨SHUTDOWN_NOW, true, 2, ?_, by omega⟩
            unfold shutdown_now shutdown_now_loop
            simp [hge, ha]
            unfold shutdown_now_loop
            simp [hga, hb]
          · have hgb : SHUTDOWN_NOW ≤ b := by
              have : a < b := lt_of_le_of_ne hab.2 (fun hh => hb hh.symm)
              unfold SHUTDOWN_NOW
              omega
            refine ⟨b, false, 2, ?_, by omega⟩
            unfold shutdown_now shutdown_now_loop
            simp [hge, ha]
            unfold shutdown_now_loop
            simp [hga, fun hh => hb hh]
            unfold shutdown_now_loop
            simp [hgb]

/-- Witness for C10 at the loaded word RUNNING and the monotone observation
sequence one, one. -/
theorem C10_cas_loop_terminates_witness :
    ∃ fw woke n,
      shutdown_now RUNNING [SHUTDOWN_IDLE, SHUTDOWN_IDLE] = some (fw, woke, n)
      ∧ n ≤ 2 :=
  C10_cas_loop_terminates RUNNING [SHUTDOWN_IDLE, SHUTDOWN_IDLE]
    (List.Chain.cons (by decide)
      (List.Chain.cons (by decide) List.Chain.nil))
    (by decide) (by decide)

end Romio
